import Mathlib

/-
Verification of the jatistore order-fulfillment core (order creation,
payment application, receipt issuance) against its specification.

The embedding translates `internal/services/order_service.go` and the
repository functions it calls (`internal/repository/payment_repository.go`,
`internal/repository/receipt_repository.go`, the order repository) into pure
Lean functions over an explicit database state.  Monetary amounts (Go
`float64`, SQL `DECIMAL(10,2)`) are modelled as `Int`, read as counts of the
currency's smallest unit (every DECIMAL(10,2) value is such an integer scaled
by one hundred); the workflow only adds, subtracts, multiplies by an item
quantity, compares, and clamps at zero, so the embedding is exact for every
representable amount.  UUIDs are modelled as `Nat`;
timestamps are omitted (no claim mentions them).  Each service operation
returns its result together with the database state after the call, so that
partially-applied side effects are representable.
-/

deriving instance DecidableEq for Except

namespace JatiStore

/-- Product row (models.Product): only the fields the order workflow reads. -/
structure Product where
  id : Nat
  price : Int
deriving DecidableEq

/-- OrderItemRequest (models.OrderItemRequest): product_id, quantity, discount. -/
structure OrderItemRequest where
  productID : Nat
  quantity : Int
  discount : Int
deriving DecidableEq

/-- CreateOrderRequest (models.CreateOrderRequest). -/
structure CreateOrderRequest where
  customerID : Option Nat
  items : List OrderItemRequest
  taxAmount : Int
  discountAmount : Int
  notes : String
deriving DecidableEq

/-- OrderItem row (models.OrderItem), timestamps omitted. -/
structure OrderItem where
  id : Nat
  orderID : Nat
  productID : Nat
  quantity : Int
  unitPrice : Int
  discount : Int
  totalPrice : Int
deriving DecidableEq

/-- Order row (models.Order), timestamps omitted; items embedded as in Go. -/
structure Order where
  id : Nat
  orderNumber : String
  customerID : Option Nat
  status : String
  subtotal : Int
  taxAmount : Int
  discountAmount : Int
  totalAmount : Int
  paymentStatus : String
  notes : String
  items : List OrderItem
deriving DecidableEq

/-- CreatePaymentRequest (models.CreatePaymentRequest); the order id is
passed separately to ProcessPayment, as in the handler. -/
structure CreatePaymentRequest where
  amount : Int
  paymentMethod : String
  reference : String
deriving DecidableEq

/-- Payment row (models.Payment), timestamps omitted. -/
structure Payment where
  id : Nat
  orderID : Nat
  amount : Int
  paymentMethod : String
  reference : String
  status : String
deriving DecidableEq

/-- Receipt row (models.Receipt), timestamps omitted. -/
structure Receipt where
  id : Nat
  orderID : Nat
  receiptNumber : String
  totalAmount : Int
  taxAmount : Int
deriving DecidableEq

/-- Error taxonomy of the spec (section 7); each constructor carries the
message string produced by `fmt.Errorf` in the Go source. -/
inductive ServiceError where
  | notFound (msg : String)
  | invalidArgument (msg : String)
  | invalidState (msg : String)
deriving DecidableEq

/-- Database state visible to the order workflow.  `nextID` stands for the
supply of fresh UUIDs (`uuid.New()`); `orderSeq` and `receiptSeq` model the
`order_number_seq` / `receipt_number_seq` sequences consumed by the
number-generation triggers of migration 002. -/
structure DBState where
  customers : List Nat
  products : List Product
  orders : List Order
  payments : List Payment
  receipts : List Receipt
  nextID : Nat
  orderSeq : Nat
  receiptSeq : Nat
deriving DecidableEq

/-- OrderRepository.GetByID: `SELECT ... FROM orders o ... WHERE o.id = $1`. -/
def findOrder (s : DBState) (oid : Nat) : Option Order :=
  s.orders.find? (fun o => o.id == oid)

/-- ProductRepository.GetByID: row lookup by primary key. -/
def findProduct (s : DBState) (pid : Nat) : Option Product :=
  s.products.find? (fun p => p.id == pid)

/-- CustomerRepository.GetByID reduced to existence (the order service only
checks that the customer exists). -/
def customerExists (s : DBState) (cid : Nat) : Bool :=
  s.customers.contains cid

/-- Sum of the amounts of the completed payments for one order within a
payments table. -/
def totalCompleted (ps : List Payment) (oid : Nat) : Int :=
  ((ps.filter (fun p => p.orderID == oid && p.status == "completed")).map
    Payment.amount).sum

/-- PaymentRepository.GetTotalPaidByOrderID:
`SELECT COALESCE(SUM(amount), 0) FROM payments WHERE order_id = $1 AND status = 'completed'`. -/
def getTotalPaidByOrderID (s : DBState) (oid : Nat) : Int :=
  totalCompleted s.payments oid

/-- PaymentRepository.Create: assigns a fresh id and inserts the row. -/
def paymentRepoCreate (s : DBState) (p : Payment) : Payment × DBState :=
  let p1 : Payment := { p with id := s.nextID }
  (p1, { s with payments := s.payments ++ [p1], nextID := s.nextID + 1 })

/-- OrderRepository.UpdatePaymentStatus: `UPDATE orders SET payment_status = $1
WHERE id = $3`; errors with "order not found" when zero rows are affected. -/
def orderRepoUpdatePaymentStatus (s : DBState) (oid : Nat) (ps : String) :
    Except ServiceError DBState :=
  if s.orders.any (fun o => o.id == oid) then
    Except.ok { s with
      orders := s.orders.map (fun o => if o.id == oid then { o with paymentStatus := ps } else o) }
  else
    Except.error (ServiceError.notFound "order not found")

/-- OrderRepository.UpdateStatus: `UPDATE orders SET status = $1 WHERE id = $3`;
errors with "order not found" when zero rows are affected. -/
def orderRepoUpdateStatus (s : DBState) (oid : Nat) (st : String) :
    Except ServiceError DBState :=
  if s.orders.any (fun o => o.id == oid) then
    Except.ok { s with
      orders := s.orders.map (fun o => if o.id == oid then { o with status := st } else o) }
  else
    Except.error (ServiceError.notFound "order not found")

/-- ReceiptRepository.GetByOrderID: `SELECT ... FROM receipts r ... WHERE
r.order_id = $1` (QueryRow: first matching row). -/
def receiptGetByOrderID (s : DBState) (oid : Nat) : Option Receipt :=
  s.receipts.find? (fun r => r.orderID == oid)

/-- ReceiptRepository.Create plus the `trigger_generate_receipt_number`
trigger.  The Go code assigns the fresh id client-side and INSERTs with no
RETURNING clause, so the receipt handed back to the service keeps whatever
receipt_number the caller set (the service always passes ""), while the
stored row receives the trigger-assigned `RCP-<next of receipt_number_seq>`
whenever the inserted number is empty. -/
def receiptRepoCreate (s : DBState) (r : Receipt) : Receipt × DBState :=
  let r1 : Receipt := { r with id := s.nextID }
  let row : Receipt :=
    if r1.receiptNumber = "" then
      { r1 with receiptNumber := "RCP-" ++ toString s.receiptSeq }
    else r1
  let seq1 : Nat := if r1.receiptNumber = "" then s.receiptSeq + 1 else s.receiptSeq
  (r1, { s with
    receipts := s.receipts ++ [row]
    nextID := s.nextID + 1
    receiptSeq := seq1 })

/-- OrderRepository.Create plus the `trigger_generate_order_number` trigger:
one transaction inserting the order header and all items; fresh ids assigned
client-side, items re-parented to the order.  As with receipts, the INSERT
has no RETURNING clause: the order handed back keeps the caller's
order_number (the service always passes ""), while the stored row receives
the trigger-assigned `ORD-<next of order_number_seq>` when the inserted
number is empty. -/
def orderRepoCreate (s : DBState) (o : Order) : Order × DBState :=
  let oid := s.nextID
  let items := (o.items.enum).map (fun it =>
    { it.2 with id := s.nextID + 1 + it.1, orderID := oid })
  let o1 : Order := { o with
    id := oid
    items := items }
  let row : Order :=
    if o1.orderNumber = "" then
      { o1 with orderNumber := "ORD-" ++ toString s.orderSeq }
    else o1
  let seq1 : Nat := if o1.orderNumber = "" then s.orderSeq + 1 else s.orderSeq
  (o1, { s with
    orders := s.orders ++ [row]
    nextID := s.nextID + 1 + o.items.length
    orderSeq := seq1 })

/-- Loop body of OrderService.CreateOrder over request items: resolve each
product, build the OrderItem with the clamped line total, and accumulate the
subtotal.  Fails with "product not found" at the first unresolvable item. -/
def buildOrderItems (s : DBState) :
    List OrderItemRequest → Except ServiceError (List OrderItem × Int)
  | [] => Except.ok ([], 0)
  | itemReq :: rest =>
    match findProduct s itemReq.productID with
    | none => Except.error (ServiceError.notFound "product not found")
    | some product =>
      let raw := product.price * itemReq.quantity - itemReq.discount
      let itemTotal := if raw < 0 then 0 else raw
      let item : OrderItem :=
        { id := 0
          orderID := 0
          productID := itemReq.productID
          quantity := itemReq.quantity
          unitPrice := product.price
          discount := itemReq.discount
          totalPrice := itemTotal }
      match buildOrderItems s rest with
      | Except.error e => Except.error e
      | Except.ok (items, sub) => Except.ok (item :: items, itemTotal + sub)

/-- OrderService.CreateOrder. -/
def createOrder (s : DBState) (req : CreateOrderRequest) :
    (Except ServiceError Order) × DBState :=
  let customerCheck : Except ServiceError (Option Nat) :=
    match req.customerID with
    | none => Except.ok none
    | some cid =>
      if customerExists s cid then Except.ok (some cid)
      else Except.error (ServiceError.notFound "customer not found")
  match customerCheck with
  | Except.error e => (Except.error e, s)
  | Except.ok customerID =>
    match buildOrderItems s req.items with
    | Except.error e => (Except.error e, s)
    | Except.ok (orderItems, subtotal) =>
      let rawTotal := subtotal + req.taxAmount - req.discountAmount
      let totalAmount := if rawTotal < 0 then 0 else rawTotal
      let order : Order :=
        { id := 0
          orderNumber := ""
          customerID := customerID
          status := "pending"
          subtotal := subtotal
          taxAmount := req.taxAmount
          discountAmount := req.discountAmount
          totalAmount := totalAmount
          paymentStatus := "pending"
          notes := req.notes
          items := orderItems }
      let created := orderRepoCreate s order
      (Except.ok created.1, created.2)

/-- Valid statuses accepted by OrderService.UpdateOrderStatus. -/
def validStatuses : List String := ["pending", "completed", "cancelled"]

/-- OrderService.UpdateOrderStatus. -/
def updateOrderStatus (s : DBState) (oid : Nat) (status : String) :
    (Except ServiceError Unit) × DBState :=
  if validStatuses.contains status then
    match orderRepoUpdateStatus s oid status with
    | Except.ok s1 => (Except.ok (), s1)
    | Except.error e => (Except.error e, s)
  else
    (Except.error (ServiceError.invalidArgument ("invalid status: " ++ status)), s)

/-- Read-and-check phase of OrderService.ProcessPayment: fetch the order,
validate the amount, read the completed total, compare against the order
total.  These are the three separate database reads preceding any write. -/
def processPaymentCheck (s : DBState) (orderID : Nat) (req : CreatePaymentRequest) :
    Except ServiceError (Order × Int) :=
  match findOrder s orderID with
  | none => Except.error (ServiceError.notFound "order not found")
  | some order =>
    if req.amount ≤ 0 then
      Except.error (ServiceError.invalidArgument "payment amount must be greater than 0")
    else
      let totalPaid := getTotalPaidByOrderID s orderID
      if totalPaid + req.amount > order.totalAmount then
        Except.error (ServiceError.invalidArgument "payment amount exceeds order total")
      else
        Except.ok (order, totalPaid)

/-- Payment value that OrderService.ProcessPayment builds (status "completed")
before PaymentRepository.Create assigns the fresh id. -/
def mkPayment0 (oid : Nat) (req : CreatePaymentRequest) : Payment :=
  { id := 0
    orderID := oid
    amount := req.amount
    paymentMethod := req.paymentMethod
    reference := req.reference
    status := "completed" }

/-- Write phase of OrderService.ProcessPayment: insert the completed payment,
then, when the (previously read) total plus this amount reaches the order
total, update the order payment status.  `order` and `totalPaid` are the
values read by the check phase, exactly as the Go code holds them in locals. -/
def processPaymentCommit (s : DBState) (orderID : Nat) (req : CreatePaymentRequest)
    (order : Order) (totalPaid : Int) : (Except ServiceError Payment) × DBState :=
  let created := paymentRepoCreate s (mkPayment0 orderID req)
  if totalPaid + req.amount ≥ order.totalAmount then
    match orderRepoUpdatePaymentStatus created.2 orderID "paid" with
    | Except.ok s2 => (Except.ok created.1, s2)
    | Except.error e => (Except.error e, created.2)
  else
    (Except.ok created.1, created.2)

/-- OrderService.ProcessPayment: check phase then write phase, run back to
back with no lock or transaction around them (as in the Go source). -/
def processPayment (s : DBState) (orderID : Nat) (req : CreatePaymentRequest) :
    (Except ServiceError Payment) × DBState :=
  match processPaymentCheck s orderID req with
  | Except.error e => (Except.error e, s)
  | Except.ok or => processPaymentCommit s orderID req or.1 or.2

/-- OrderService.GenerateReceipt. -/
def generateReceipt (s : DBState) (orderID : Nat) :
    (Except ServiceError Receipt) × DBState :=
  match findOrder s orderID with
  | none => (Except.error (ServiceError.notFound "order not found"), s)
  | some order =>
    if order.paymentStatus ≠ "paid" then
      (Except.error (ServiceError.invalidState "cannot generate receipt for unpaid order"), s)
    else
      match receiptGetByOrderID s orderID with
      | some existing => (Except.ok existing, s)
      | none =>
        let receipt : Receipt :=
          { id := 0
            orderID := orderID
            receiptNumber := ""
            totalAmount := order.totalAmount
            taxAmount := order.taxAmount }
        let created := receiptRepoCreate s receipt
        (Except.ok created.1, created.2)

/-- Run a sequence of ProcessPayment calls (arbitrary order ids and
requests), threading the database state; failed calls contribute whatever
state the failing call left behind. -/
def runPayments (s : DBState) : List (Nat × CreatePaymentRequest) → DBState
  | [] => s
  | c :: rest => runPayments (processPayment s c.1 c.2).2 rest

/-- Run a sequence of ProcessPayment calls against one order, requiring every
call to succeed; returns `none` as soon as one fails. -/
def runPaymentsOk (s : DBState) (oid : Nat) :
    List CreatePaymentRequest → Option DBState
  | [] => some s
  | req :: rest =>
    match processPayment s oid req with
    | (Except.ok _, s1) => runPaymentsOk s1 oid rest
    | (Except.error _, _) => none

/-- Well-formedness inherited from the schema: `orders.id` is a primary key,
so order ids are pairwise distinct. -/
def ordersWF (s : DBState) : Prop :=
  (s.orders.map Order.id).Nodup

/-- Payment cap invariant of the spec: for every order row, the sum of the
amounts of its completed payments is at most the order total. -/
def PaymentCapInv (s : DBState) : Prop :=
  ∀ o ∈ s.orders, getTotalPaidByOrderID s o.id ≤ o.totalAmount

instance (s : DBState) : Decidable (ordersWF s) := by
  unfold ordersWF; infer_instance

instance (s : DBState) : Decidable (PaymentCapInv s) := by
  unfold PaymentCapInv; exact List.decidableBAll _ _

/-- Payment row as OrderService.ProcessPayment builds it and
PaymentRepository.Create completes it (fresh id, status "completed"). -/
def mkPayment (s : DBState) (oid : Nat) (req : CreatePaymentRequest) : Payment :=
  { id := s.nextID
    orderID := oid
    amount := req.amount
    paymentMethod := req.paymentMethod
    reference := req.reference
    status := "completed" }

/-- Constraints that migration 002_pos_tables.sql places on an INSERT into the
`receipts` table: PRIMARY KEY on id, UNIQUE on receipt_number, NOT NULL plus
foreign key on order_id, CHECK (total_amount >= 0), CHECK (tax_amount >= 0).
`idx_receipts_order_id` is a plain `CREATE INDEX` (not `CREATE UNIQUE INDEX`),
so it contributes no constraint; order_id has no UNIQUE clause. -/
def receiptInsertAllowed (orderIDs : List Nat) (tbl : List Receipt) (r : Receipt) : Prop :=
  (∀ x ∈ tbl, x.id ≠ r.id) ∧
  (∀ x ∈ tbl, x.receiptNumber ≠ r.receiptNumber) ∧
  r.orderID ∈ orderIDs ∧
  0 ≤ r.totalAmount ∧ 0 ≤ r.taxAmount

instance (ids : List Nat) (tbl : List Receipt) (r : Receipt) :
    Decidable (receiptInsertAllowed ids tbl r) := by
  unfold receiptInsertAllowed; infer_instance

/-- Concrete product used by the witnesses: price 100, mirroring the
end-to-end scenario of the spec (section 8). -/
def wsProduct : Product := { id := 10, price := 100 }

/-- Concrete order used by the witnesses: subtotal 190, tax 15, discount 5,
total 200, freshly created (pending, no payments). -/
def wsOrder : Order :=
  { id := 1
    orderNumber := "ORD-1000"
    customerID := some 5
    status := "pending"
    subtotal := 190
    taxAmount := 15
    discountAmount := 5
    totalAmount := 200
    paymentStatus := "pending"
    notes := ""
    items := [] }

/-- Concrete database holding `wsOrder`, its customer, and `wsProduct`. -/
def wsState : DBState :=
  { customers := [5]
    products := [wsProduct]
    orders := [wsOrder]
    payments := []
    receipts := []
    nextID := 100
    orderSeq := 1001
    receiptSeq := 1000 }

/-- The witness order after full payment. -/
def wsOrderPaid : Order := { wsOrder with paymentStatus := "paid" }

/-- Witness database whose order is fully paid. -/
def wsStatePaid : DBState := { wsState with orders := [wsOrderPaid] }

/-- The witness order after cancellation (status "cancelled", unpaid). -/
def wsOrderCancelled : Order := { wsOrder with status := "cancelled" }

/-- Witness database whose order is cancelled but unpaid. -/
def wsStateCancelled : DBState := { wsState with orders := [wsOrderCancelled] }

/-- The witness order with status "completed". -/
def wsOrderCompleted : Order := { wsOrder with status := "completed" }

/-- Witness database whose order has status "completed". -/
def wsStateCompleted : DBState := { wsState with orders := [wsOrderCompleted] }

/-- Two payment requests of 100 each (split payment of the 200 total). -/
def wsReqs : List CreatePaymentRequest :=
  [{ amount := 100, paymentMethod := "cash", reference := "" },
   { amount := 100, paymentMethod := "card", reference := "" }]

/-- State reached by running the two successful 100-payments on `wsState`. -/
def wsAfterTwo : DBState := ((runPaymentsOk wsState 1 wsReqs).getD wsState)

/-- A single payment request of 100 (half of the 200 total). -/
def wsReqsOne : List CreatePaymentRequest :=
  [{ amount := 100, paymentMethod := "cash", reference := "" }]

/-- State reached by running the single 100-payment on `wsState`. -/
def wsAfterOne : DBState := ((runPaymentsOk wsState 1 wsReqsOne).getD wsState)

/-- Payment request for the full 200 total, used by the C10 witness. -/
def wsPayFull : CreatePaymentRequest :=
  { amount := 200, paymentMethod := "cash", reference := "" }

/-- Creation request matching the end-to-end scenario of the spec:
one item (product 10, qty 2, discount 10), tax 15, order discount 5. -/
def wsCreateReq : CreateOrderRequest :=
  { customerID := some 5
    items := [{ productID := 10, quantity := 2, discount := 10 }]
    taxAmount := 15
    discountAmount := 5
    notes := "" }

/-- Order that `createOrder wsState wsCreateReq` produces. -/
def wsCreatedOrder : Order :=
  { id := 100
    orderNumber := ""
    customerID := some 5
    status := "pending"
    subtotal := 190
    taxAmount := 15
    discountAmount := 5
    totalAmount := 200
    paymentStatus := "pending"
    notes := ""
    items := [{ id := 101, orderID := 100, productID := 10, quantity := 2,
                unitPrice := 100, discount := 10, totalPrice := 190 }] }

/-- Database state after the witness order creation. -/
def wsCreatedState : DBState := (createOrder wsState wsCreateReq).2

/-- Creation request whose second item references an absent product. -/
def wsBadCreateReq : CreateOrderRequest :=
  { customerID := some 5
    items := [{ productID := 10, quantity := 1, discount := 0 },
              { productID := 99, quantity := 1, discount := 0 }]
    taxAmount := 0
    discountAmount := 0
    notes := "" }

/-- Receipt row stored by the first GenerateReceipt call on `wsStatePaid`
(the trigger assigns "RCP-1000"); later calls return this row. -/
def wsReceipt : Receipt :=
  { id := 100
    orderID := 1
    receiptNumber := "RCP-1000"
    totalAmount := 200
    taxAmount := 15 }

/-- Receipt value the first GenerateReceipt call hands back: same id as the
stored row but receipt_number "" because the INSERT is not read back. -/
def wsReceiptReturned : Receipt :=
  { id := 100
    orderID := 1
    receiptNumber := ""
    totalAmount := 200
    taxAmount := 15 }

/-- Database state after the first GenerateReceipt call on `wsStatePaid`. -/
def wsStateReceipted : DBState := (generateReceipt wsStatePaid 1).2

/-- Order used by the concurrency counterexample: total 100, nothing paid. -/
def raceOrder : Order :=
  { id := 1
    orderNumber := "ORD-1000"
    customerID := none
    status := "pending"
    subtotal := 100
    taxAmount := 0
    discountAmount := 0
    totalAmount := 100
    paymentStatus := "pending"
    notes := ""
    items := [] }

/-- Database holding only `raceOrder`. -/
def raceState : DBState :=
  { customers := []
    products := []
    orders := [raceOrder]
    payments := []
    receipts := []
    nextID := 10
    orderSeq := 1001
    receiptSeq := 1000 }

/-- Payment request of 100 submitted by each of the two concurrent callers. -/
def raceReq : CreatePaymentRequest :=
  { amount := 100, paymentMethod := "card", reference := "" }

/-- Final state of the read-read-write-write interleaving of two
ProcessPayment calls: both callers run the check phase against `raceState`
(each reading totalPaid = 0), then both run the write phase in turn. -/
def raceFinal : DBState :=
  (processPaymentCommit
    ((processPaymentCommit raceState 1 raceReq raceOrder 0).2)
    1 raceReq raceOrder 0).2

theorem findOrder_mem {s : DBState} {oid : Nat} {o : Order}
    (h : findOrder s oid = some o) : o ∈ s.orders :=
  List.mem_of_find?_eq_some h

theorem findOrder_id {s : DBState} {oid : Nat} {o : Order}
    (h : findOrder s oid = some o) : o.id = oid := by
  have h1 := List.find?_some h
  simpa using h1

theorem findOrder_any {s : DBState} {oid : Nat} {o : Order}
    (h : findOrder s oid = some o) :
    s.orders.any (fun x => x.id == oid) = true := by
  rw [List.any_eq_true]
  exact ⟨o, findOrder_mem h, by simpa using findOrder_id h⟩

theorem findOrder_none_any {s : DBState} {oid : Nat}
    (h : findOrder s oid = none) :
    s.orders.any (fun x => x.id == oid) = false := by
  rw [List.any_eq_false]
  intro x hx
  have h1 := List.find?_eq_none.mp h x hx
  simpa using h1

theorem findOrder_eq_of_orders {s t : DBState} (h : t.orders = s.orders)
    (oid : Nat) : findOrder t oid = findOrder s oid := by
  simp [findOrder, h]

theorem gtp_eq_of_payments {s t : DBState} (h : t.payments = s.payments)
    (oid : Nat) : getTotalPaidByOrderID t oid = getTotalPaidByOrderID s oid := by
  simp [getTotalPaidByOrderID, h]

theorem totalCompleted_append (ps qs : List Payment) (oid : Nat) :
    totalCompleted (ps ++ qs) oid = totalCompleted ps oid + totalCompleted qs oid := by
  simp [totalCompleted, List.filter_append]

theorem totalCompleted_single_match {p : Payment} {oid : Nat}
    (h1 : p.orderID = oid) (h2 : p.status = "completed") :
    totalCompleted [p] oid = p.amount := by
  simp [totalCompleted, List.filter, h1, h2]


theorem totalCompleted_single_nomatch {p : Payment} {oid : Nat}
    (h : p.orderID ≠ oid) : totalCompleted [p] oid = 0 := by
  have hb : (p.orderID == oid) = false := by simpa using h
  simp [totalCompleted, List.filter, hb]

theorem order_mem_id_unique {s : DBState} (hwf : ordersWF s) {a b : Order}
    (ha : a ∈ s.orders) (hb : b ∈ s.orders) (h : a.id = b.id) : a = b :=
  List.inj_on_of_nodup_map hwf ha hb h

theorem orderRepoUpdatePS_isOk {s : DBState} {oid : Nat} (ps : String)
    (hany : s.orders.any (fun x => x.id == oid) = true) :
    ∃ t, orderRepoUpdatePaymentStatus s oid ps = Except.ok t := by
  unfold orderRepoUpdatePaymentStatus
  rw [if_pos hany]
  exact ⟨_, rfl⟩

theorem orderRepoUpdatePS_ok {s : DBState} {oid : Nat} {ps : String} {t : DBState}
    (h : orderRepoUpdatePaymentStatus s oid ps = Except.ok t) :
    t.payments = s.payments ∧ t.receipts = s.receipts ∧
    t.orders.map (fun x => (x.id, x.totalAmount))
      = s.orders.map (fun x => (x.id, x.totalAmount)) ∧
    ∀ x : Nat, findOrder t x = (findOrder s x).map
      (fun o => if o.id == oid then { o with paymentStatus := ps } else o) := by
  unfold orderRepoUpdatePaymentStatus at h
  split at h
  case isTrue hany =>
    injection h with h
    subst h
    refine ⟨rfl, rfl, ?_, ?_⟩
    · rw [List.map_map]
      apply List.map_congr_left
      intro x hx
      by_cases hxi : x.id = oid <;> simp [hxi]
    · intro x
      show (s.orders.map _).find? _ = _
      rw [List.find?_map]
      have hc : ((fun o : Order => o.id == x) ∘ (fun o : Order => if o.id == oid then { o with paymentStatus := ps } else o)) = (fun o : Order => o.id == x) := by
        funext y
        by_cases hy : y.id = oid <;> simp [hy]
      rw [hc]
      rfl
  case isFalse hany =>
    cases h

theorem orderRepoUpdateStatus_isOk {s : DBState} {oid : Nat} (st : String)
    (hany : s.orders.any (fun x => x.id == oid) = true) :
    ∃ t, orderRepoUpdateStatus s oid st = Except.ok t := by
  unfold orderRepoUpdateStatus
  rw [if_pos hany]
  exact ⟨_, rfl⟩

theorem orderRepoUpdateStatus_ok {s : DBState} {oid : Nat} {st : String} {t : DBState}
    (h : orderRepoUpdateStatus s oid st = Except.ok t) :
    t.payments = s.payments ∧ t.receipts = s.receipts ∧
    ∀ x : Nat, findOrder t x = (findOrder s x).map
      (fun o => if o.id == oid then { o with status := st } else o) := by
  unfold orderRepoUpdateStatus at h
  split at h
  case isTrue hany =>
    injection h with h
    subst h
    refine ⟨rfl, rfl, ?_⟩
    intro x
    show (s.orders.map _).find? _ = _
    rw [List.find?_map]
    have hc : ((fun o : Order => o.id == x) ∘ (fun o : Order => if o.id == oid then { o with status := st } else o)) = (fun o : Order => o.id == x) := by
      funext y
      by_cases hy : y.id = oid <;> simp [hy]
    rw [hc]
    rfl
  case isFalse hany =>
    cases h

theorem receiptRepoCreate_orders (s : DBState) (r0 : Receipt) :
    ((receiptRepoCreate s r0).2).orders = s.orders := rfl

theorem receiptRepoCreate_fst (s : DBState) (r0 : Receipt) :
    (receiptRepoCreate s r0).1 = { r0 with id := s.nextID } := rfl

theorem receiptRepoCreate_receipts_empty (s : DBState) (r0 : Receipt)
    (h : r0.receiptNumber = "") :
    ((receiptRepoCreate s r0).2).receipts = s.receipts ++
      [⟨s.nextID, r0.orderID, "RCP-" ++ toString s.receiptSeq, r0.totalAmount, r0.taxAmount⟩] := by
  unfold receiptRepoCreate
  dsimp only
  rw [if_pos h]

/-- Claim C3: GenerateReceipt on an existing order whose payment_status is not
"paid" fails with the InvalidState error "cannot generate receipt for unpaid
order" and leaves the database (in particular the receipt store) unchanged. -/
theorem generateReceipt_gating {s : DBState} {oid : Nat} {o : Order}
    (hf : findOrder s oid = some o) (hnp : o.paymentStatus ≠ "paid") :
    generateReceipt s oid =
      (Except.error (ServiceError.invalidState "cannot generate receipt for unpaid order"), s) := by
  unfold generateReceipt
  rw [hf]
  simp [hnp]

/-- Witness for C3: on the concrete pending order of `wsState`, GenerateReceipt
fails with InvalidState and the state is unchanged. -/
theorem generateReceipt_gating_witness :
    findOrder wsState 1 = some wsOrder ∧ wsOrder.paymentStatus ≠ "paid" ∧
    generateReceipt wsState 1 =
      (Except.error (ServiceError.invalidState "cannot generate receipt for unpaid order"), wsState) :=
  ⟨by decide, by decide,
    @generateReceipt_gating wsState 1 wsOrder (by decide) (by decide)⟩

theorem generateReceipt_after_create {s : DBState} {oid : Nat} {o : Order}
    (hf : findOrder s oid = some o) (hp : o.paymentStatus = "paid")
    (hg : receiptGetByOrderID s oid = none) (r0 : Receipt) (hr0 : r0.orderID = oid)
    (hrn : r0.receiptNumber = "") :
    generateReceipt (receiptRepoCreate s r0).2 oid =
      (Except.ok (⟨s.nextID, r0.orderID, "RCP-" ++ toString s.receiptSeq,
          r0.totalAmount, r0.taxAmount⟩ : Receipt),
       (receiptRepoCreate s r0).2) := by
  unfold generateReceipt
  have h1 : findOrder (receiptRepoCreate s r0).2 oid = some o := by
    rw [findOrder_eq_of_orders (receiptRepoCreate_orders s r0) oid]
    exact hf
  rw [h1]
  dsimp only
  rw [if_neg (by simp [hp])]
  have h2 : receiptGetByOrderID (receiptRepoCreate s r0).2 oid
      = some ⟨s.nextID, r0.orderID, "RCP-" ++ toString s.receiptSeq,
          r0.totalAmount, r0.taxAmount⟩ := by
    show ((receiptRepoCreate s r0).2).receipts.find? _ = _
    rw [receiptRepoCreate_receipts_empty s r0 hrn]
    rw [List.find?_append]
    have hn : s.receipts.find? (fun x => x.orderID == oid) = none := hg
    rw [hn]
    simp [hr0]
  rw [h2]

/-- Claim C4 as stated is false of the program: ReceiptRepository.Create
INSERTs without a RETURNING clause, so the trigger-assigned receipt_number
never flows back to the caller.  On the concrete paid order the first
GenerateReceipt call returns receipt_number "" while the second call returns
the stored "RCP-1000"; the ids are identical but the receipt_numbers are
not. -/
theorem generateReceipt_number_counterexample :
    generateReceipt wsStatePaid 1 = (Except.ok wsReceiptReturned, wsStateReceipted) ∧
    generateReceipt wsStateReceipted 1 = (Except.ok wsReceipt, wsStateReceipted) ∧
    wsReceiptReturned.id = wsReceipt.id ∧
    wsReceiptReturned.receiptNumber ≠ wsReceipt.receiptNumber := by
  refine ⟨by decide, by decide, by decide, by decide⟩

/-- Claim C4 amended: GenerateReceipt on a paid order is get-or-create on the
stored row and idempotent up to the returned receipt_number.  A second call
returns the stored receipt, leaves the state unchanged, and yields the same
receipt id as the first call; if a receipt already existed, both calls return
it verbatim (identical id and receipt_number); if none existed, the first
call's returned receipt carries receipt_number "" (the INSERT is not read
back) while the second call returns the stored row numbered
"RCP-<receipt_number_seq>", and exactly one row was inserted. -/
theorem generateReceipt_idempotent_amended {s : DBState} {oid : Nat} {o : Order}
    {r : Receipt} {s1 : DBState}
    (hf : findOrder s oid = some o) (hp : o.paymentStatus = "paid")
    (h1 : generateReceipt s oid = (Except.ok r, s1)) :
    ∃ r2, generateReceipt s1 oid = (Except.ok r2, s1) ∧ r2.id = r.id ∧
      (∀ ex, receiptGetByOrderID s oid = some ex → r2 = r ∧ s1 = s) ∧
      (receiptGetByOrderID s oid = none →
        r.receiptNumber = "" ∧
        r2.receiptNumber = "RCP-" ++ toString s.receiptSeq ∧
        s1.receipts = s.receipts ++ [r2]) := by
  unfold generateReceipt at h1
  rw [hf] at h1
  dsimp only at h1
  rw [if_neg (by simp [hp])] at h1
  cases hg : receiptGetByOrderID s oid with
  | some ex =>
    rw [hg] at h1
    injection h1 with h1a h1b
    injection h1a with hr
    subst hr
    subst h1b
    refine ⟨ex, ?_, rfl, ?_, ?_⟩
    · unfold generateReceipt
      rw [hf]
      dsimp only
      rw [if_neg (by simp [hp]), hg]
    · intro ex2 hex2
      exact ⟨rfl, rfl⟩
    · intro hnone
      cases hnone
  | none =>
    rw [hg] at h1
    have hs1 : (receiptRepoCreate s ⟨0, oid, "", o.totalAmount, o.taxAmount⟩).2 = s1 :=
      congrArg Prod.snd h1
    have hrr : Except.ok (receiptRepoCreate s ⟨0, oid, "", o.totalAmount, o.taxAmount⟩).1
        = (Except.ok r : Except ServiceError Receipt) :=
      congrArg Prod.fst h1
    injection hrr with hrr1
    refine ⟨⟨s.nextID, oid, "RCP-" ++ toString s.receiptSeq, o.totalAmount, o.taxAmount⟩,
      ?_, ?_, ?_, ?_⟩
    · exact hs1 ▸ generateReceipt_after_create hf hp hg _ rfl rfl
    · rw [← hrr1]
      rfl
    · intro ex2 hex2
      cases hex2
    · intro hnone
      refine ⟨?_, rfl, ?_⟩
      · rw [← hrr1]
        rfl
      · rw [← hs1]
        exact receiptRepoCreate_receipts_empty s _ rfl

/-- Witness for the amended C4: on the concrete paid order, the second call
returns the stored receipt with the same id, state unchanged, the first
returned number is "" and the stored one is "RCP-1000", one row inserted. -/
theorem generateReceipt_idempotent_amended_witness :
    findOrder wsStatePaid 1 = some wsOrderPaid ∧ wsOrderPaid.paymentStatus = "paid" ∧
    generateReceipt wsStatePaid 1 = (Except.ok wsReceiptReturned, wsStateReceipted) ∧
    ∃ r2, generateReceipt wsStateReceipted 1 = (Except.ok r2, wsStateReceipted) ∧
      r2.id = wsReceiptReturned.id ∧
      (∀ ex, receiptGetByOrderID wsStatePaid 1 = some ex →
        r2 = wsReceiptReturned ∧ wsStateReceipted = wsStatePaid) ∧
      (receiptGetByOrderID wsStatePaid 1 = none →
        wsReceiptReturned.receiptNumber = "" ∧
        r2.receiptNumber = "RCP-" ++ toString wsStatePaid.receiptSeq ∧
        wsStateReceipted.receipts = wsStatePaid.receipts ++ [r2]) :=
  ⟨by decide, by decide, by decide,
    @generateReceipt_idempotent_amended wsStatePaid 1 wsOrderPaid wsReceiptReturned
      wsStateReceipted (by decide) (by decide) (by decide)⟩

/-- Claim C9: UpdateOrderStatus rejects any status outside
{pending, completed, cancelled} with InvalidArgument and leaves the state
unchanged; accepts any of the three statuses on an existing order regardless
of its current status (no transition-table guard); and fails with NotFound
(zero rows affected) when the order does not exist. -/
theorem updateOrderStatus_spec (s : DBState) (oid : Nat) (st : String) :
    (st ∉ validStatuses →
      updateOrderStatus s oid st =
        (Except.error (ServiceError.invalidArgument ("invalid status: " ++ st)), s)) ∧
    (st ∈ validStatuses → ∀ o : Order, findOrder s oid = some o →
      ∃ s1, updateOrderStatus s oid st = (Except.ok (), s1) ∧
        findOrder s1 oid = some { o with status := st }) ∧
    (st ∈ validStatuses → findOrder s oid = none →
      updateOrderStatus s oid st =
        (Except.error (ServiceError.notFound "order not found"), s)) := by
  refine ⟨fun hbad => ?_, fun hgood o hf => ?_, fun hgood hnone => ?_⟩
  · unfold updateOrderStatus
    rw [if_neg (by simpa using hbad)]
  · obtain ⟨t, ht⟩ := orderRepoUpdateStatus_isOk st (findOrder_any hf)
    refine ⟨t, ?_, ?_⟩
    · unfold updateOrderStatus
      rw [if_pos (by simpa using hgood), ht]
    · obtain ⟨-, -, hfind⟩ := orderRepoUpdateStatus_ok ht
      rw [hfind oid, hf]
      have hid : o.id = oid := findOrder_id hf
      simp [hid]
  · unfold updateOrderStatus
    rw [if_pos (by simpa using hgood)]
    unfold orderRepoUpdateStatus
    rw [if_neg (by simp [findOrder_none_any hnone])]

/-- Witness for C9: the unknown status "shipped" is rejected; "pending" is
accepted on an order whose current status is "completed" (no transition
guard); a valid status on a missing order id fails with NotFound. -/
theorem updateOrderStatus_spec_witness :
    (("shipped" ∉ validStatuses) ∧
      updateOrderStatus wsStateCompleted 1 "shipped" =
        (Except.error (ServiceError.invalidArgument "invalid status: shipped"), wsStateCompleted)) ∧
    (("pending" ∈ validStatuses) ∧ findOrder wsStateCompleted 1 = some wsOrderCompleted ∧
      ∃ s1, updateOrderStatus wsStateCompleted 1 "pending" = (Except.ok (), s1) ∧
        findOrder s1 1 = some { wsOrderCompleted with status := "pending" }) ∧
    (("completed" ∈ validStatuses) ∧ findOrder wsStateCompleted 999 = none ∧
      updateOrderStatus wsStateCompleted 999 "completed" =
        (Except.error (ServiceError.notFound "order not found"), wsStateCompleted)) :=
  ⟨⟨by decide, (updateOrderStatus_spec wsStateCompleted 1 "shipped").1 (by decide)⟩,
   ⟨by decide, by decide,
     (updateOrderStatus_spec wsStateCompleted 1 "pending").2.1 (by decide)
       wsOrderCompleted (by decide)⟩,
   ⟨by decide, by decide,
     (updateOrderStatus_spec wsStateCompleted 999 "completed").2.2 (by decide) (by decide)⟩⟩

theorem ite_neg_eq_max (x : Int) : (if x < 0 then 0 else x) = max 0 x := by
  split
  case isTrue h => exact (max_eq_left h.le).symm
  case isFalse h => exact (max_eq_right (not_lt.mp h)).symm

theorem buildOrderItems_spec {s : DBState} :
    ∀ {l : List OrderItemRequest} {items : List OrderItem} {sub : Int},
      buildOrderItems s l = Except.ok (items, sub) →
      sub = (items.map OrderItem.totalPrice).sum ∧
      ∀ it ∈ items,
        (∃ p, findProduct s it.productID = some p ∧ it.unitPrice = p.price) ∧
        it.totalPrice = max 0 (it.unitPrice * it.quantity - it.discount) := by
  intro l
  induction l with
  | nil =>
    intro items sub h
    unfold buildOrderItems at h
    injection h with h
    injection h with h1 h2
    subst h1
    subst h2
    exact ⟨rfl, by intro it hit; cases hit⟩
  | cons a rest ih =>
    intro items sub h
    unfold buildOrderItems at h
    cases hp : findProduct s a.productID with
    | none => rw [hp] at h; cases h
    | some product =>
      rw [hp] at h
      dsimp only at h
      cases hb : buildOrderItems s rest with
      | error e => rw [hb] at h; cases h
      | ok pr =>
        obtain ⟨items1, sub1⟩ := pr
        rw [hb] at h
        injection h with h
        injection h with h1 h2
        subst h1
        subst h2
        obtain ⟨hsum, hall⟩ := ih hb
        constructor
        · rw [List.map_cons, List.sum_cons, hsum]
        · intro it hit
          cases hit with
          | head =>
            refine ⟨⟨product, hp, rfl⟩, ?_⟩
            exact ite_neg_eq_max _
          | tail b hmem => exact hall it hmem

/-- Projection of an OrderItem to the fields that persistence never changes
(OrderRepository.Create only reassigns id and order_id). -/
def itemData (it : OrderItem) : Nat × Int × Int × Int × Int :=
  (it.productID, it.quantity, it.unitPrice, it.discount, it.totalPrice)

theorem orderRepoCreate_items_data (s : DBState) (o : Order) :
    (((orderRepoCreate s o).1).items).map itemData = (o.items).map itemData := by
  unfold orderRepoCreate
  dsimp only
  rw [List.map_map]
  rw [show (itemData ∘ fun it : Nat × OrderItem => { it.2 with id := s.nextID + 1 + it.1, orderID := s.nextID }) = itemData ∘ Prod.snd from by funext x; cases x; rfl]
  rw [← List.map_map]
  rw [List.enum_eq_enumFrom, List.enumFrom_map_snd]

theorem map_totalPrice_of_data {l1 l2 : List OrderItem}
    (h : l1.map itemData = l2.map itemData) :
    l1.map OrderItem.totalPrice = l2.map OrderItem.totalPrice := by
  have h2 := congrArg (List.map (fun x : Nat × Int × Int × Int × Int => x.2.2.2.2)) h
  simpa [List.map_map, Function.comp_def, itemData] using h2

theorem mem_data_transfer {l1 l2 : List OrderItem}
    (h : l1.map itemData = l2.map itemData) {it : OrderItem} (hit : it ∈ l1) :
    ∃ it2 ∈ l2, itemData it2 = itemData it := by
  have h1 : itemData it ∈ l2.map itemData := h ▸ List.mem_map_of_mem itemData hit
  obtain ⟨it2, hmem, heq⟩ := List.mem_map.mp h1
  exact ⟨it2, hmem, heq⟩

theorem orderRepoCreate_pricing {s : DBState} (ord : Order) {items : List OrderItem}
    {sub taxA discA : Int}
    (hitems : ord.items = items)
    (hsub : ord.subtotal = sub)
    (htot : ord.totalAmount = if sub + taxA - discA < 0 then 0 else sub + taxA - discA)
    (hsum : sub = (items.map OrderItem.totalPrice).sum)
    (hall : ∀ it ∈ items,
      (∃ p, findProduct s it.productID = some p ∧ it.unitPrice = p.price) ∧
      it.totalPrice = max 0 (it.unitPrice * it.quantity - it.discount)) :
    (∀ it ∈ ((orderRepoCreate s ord).1).items,
      (∃ p, findProduct s it.productID = some p ∧ it.unitPrice = p.price) ∧
      it.totalPrice = max 0 (it.unitPrice * it.quantity - it.discount) ∧
      0 ≤ it.totalPrice) ∧
    ((orderRepoCreate s ord).1).subtotal
      = ((((orderRepoCreate s ord).1).items).map OrderItem.totalPrice).sum ∧
    ((orderRepoCreate s ord).1).totalAmount
      = max 0 (((orderRepoCreate s ord).1).subtotal + taxA - discA) ∧
    0 ≤ ((orderRepoCreate s ord).1).totalAmount := by
  have hdata : (((orderRepoCreate s ord).1).items).map itemData = items.map itemData := by
    rw [orderRepoCreate_items_data s ord, hitems]
  have hscal1 : ((orderRepoCreate s ord).1).subtotal = ord.subtotal := rfl
  have hscal2 : ((orderRepoCreate s ord).1).totalAmount = ord.totalAmount := rfl
  refine ⟨?_, ?_, ?_, ?_⟩
  · intro it hit
    obtain ⟨it2, hmem2, heq⟩ := mem_data_transfer hdata hit
    obtain ⟨⟨p, hp, hup⟩, htp⟩ := hall it2 hmem2
    simp only [itemData, Prod.mk.injEq] at heq
    obtain ⟨e1, e2, e3, e4, e5⟩ := heq
    refine ⟨⟨p, ?_, ?_⟩, ?_, ?_⟩
    · rw [← e1]; exact hp
    · rw [← e3]; exact hup
    · rw [← e5, ← e3, ← e2, ← e4]; exact htp
    · rw [← e5, htp]; exact le_max_left 0 _
  · rw [hscal1, hsub, map_totalPrice_of_data hdata, hsum]
  · rw [hscal2, htot, hscal1, hsub]
    exact ite_neg_eq_max _
  · rw [hscal2, htot]
    have hx := ite_neg_eq_max (sub + taxA - discA)
    rw [hx]
    exact le_max_left 0 _

/-- Claim C5: every successfully created order has, for each item, a line
total of max(0, unit_price * quantity - discount) with the unit price taken
from the product resolved at creation time; the order subtotal is the sum of
the line totals and the order total is max(0, subtotal + tax - discount); no
line total and no order total is negative. -/
theorem createOrder_pricing {s : DBState} {req : CreateOrderRequest} {o : Order}
    {s1 : DBState} (h : createOrder s req = (Except.ok o, s1)) :
    (∀ it ∈ o.items,
      (∃ p, findProduct s it.productID = some p ∧ it.unitPrice = p.price) ∧
      it.totalPrice = max 0 (it.unitPrice * it.quantity - it.discount) ∧
      0 ≤ it.totalPrice) ∧
    o.subtotal = ((o.items).map OrderItem.totalPrice).sum ∧
    o.totalAmount = max 0 (o.subtotal + req.taxAmount - req.discountAmount) ∧
    0 ≤ o.totalAmount := by
  unfold createOrder at h
  cases hcid : req.customerID with
  | none =>
    rw [hcid] at h
    dsimp only at h
    cases hb : buildOrderItems s req.items with
    | error e =>
      rw [hb] at h
      dsimp only at h
      simp at h
    | ok pr =>
      obtain ⟨items, sub⟩ := pr
      rw [hb] at h
      dsimp only at h
      injection congrArg Prod.fst h with ho
      obtain ⟨hsum, hall⟩ := buildOrderItems_spec hb
      exact ho ▸ orderRepoCreate_pricing _ rfl rfl rfl hsum hall
  | some cid =>
    rw [hcid] at h
    dsimp only at h
    by_cases hce : customerExists s cid
    · rw [if_pos hce] at h
      dsimp only at h
      cases hb : buildOrderItems s req.items with
      | error e =>
        rw [hb] at h
        dsimp only at h
        simp at h
      | ok pr =>
        obtain ⟨items, sub⟩ := pr
        rw [hb] at h
        dsimp only at h
        injection congrArg Prod.fst h with ho
        obtain ⟨hsum, hall⟩ := buildOrderItems_spec hb
        exact ho ▸ orderRepoCreate_pricing _ rfl rfl rfl hsum hall
    · rw [if_neg hce] at h
      dsimp only at h
      simp at h

/-- Witness for C5: creating the end-to-end scenario order of the spec
(price 100, qty 2, item discount 10, tax 15, order discount 5) yields line
total 190, subtotal 190 and total 200, and the pricing equations hold. -/
theorem createOrder_pricing_witness :
    createOrder wsState wsCreateReq = (Except.ok wsCreatedOrder, wsCreatedState) ∧
    ((∀ it ∈ wsCreatedOrder.items,
      (∃ p, findProduct wsState it.productID = some p ∧ it.unitPrice = p.price) ∧
      it.totalPrice = max 0 (it.unitPrice * it.quantity - it.discount) ∧
      0 ≤ it.totalPrice) ∧
    wsCreatedOrder.subtotal = ((wsCreatedOrder.items).map OrderItem.totalPrice).sum ∧
    wsCreatedOrder.totalAmount
      = max 0 (wsCreatedOrder.subtotal + wsCreateReq.taxAmount - wsCreateReq.discountAmount) ∧
    0 ≤ wsCreatedOrder.totalAmount) :=
  ⟨by decide,
    @createOrder_pricing wsState wsCreateReq wsCreatedOrder wsCreatedState (by decide)⟩

theorem buildOrderItems_fail {s : DBState} :
    ∀ {l : List OrderItemRequest},
      (∃ it ∈ l, findProduct s it.productID = none) →
      buildOrderItems s l = Except.error (ServiceError.notFound "product not found") := by
  intro l
  induction l with
  | nil =>
    intro h
    obtain ⟨it, hmem, -⟩ := h
    cases hmem
  | cons a rest ih =>
    intro h
    unfold buildOrderItems
    cases hp : findProduct s a.productID with
    | none => rfl
    | some product =>
      dsimp only
      obtain ⟨it, hmem, hnone⟩ := h
      cases hmem with
      | head =>
        rw [hp] at hnone
        cases hnone
      | tail b hmem2 =>
        rw [ih ⟨it, hmem2, hnone⟩]

/-- Claim C6: CreateOrder is all-or-nothing. If the given customer does not
resolve, or any item's product does not resolve, CreateOrder fails with a
NotFound error and returns the database unchanged: zero order rows and zero
order-item rows are created. -/
theorem createOrder_all_or_nothing {s : DBState} {req : CreateOrderRequest}
    (h : (∃ cid, req.customerID = some cid ∧ customerExists s cid = false) ∨
         (∃ it ∈ req.items, findProduct s it.productID = none)) :
    ∃ msg, createOrder s req = (Except.error (ServiceError.notFound msg), s) := by
  unfold createOrder
  cases h with
  | inl hcust =>
    obtain ⟨cid, hcid, hex⟩ := hcust
    rw [hcid]
    dsimp only
    rw [if_neg (by simp [hex])]
    exact ⟨"customer not found", rfl⟩
  | inr hprod =>
    cases hcid : req.customerID with
    | none =>
      dsimp only
      rw [buildOrderItems_fail hprod]
      exact ⟨"product not found", rfl⟩
    | some cid =>
      dsimp only
      by_cases hce : customerExists s cid
      · rw [if_pos hce]
        dsimp only
        rw [buildOrderItems_fail hprod]
        exact ⟨"product not found", rfl⟩
      · rw [if_neg hce]
        exact ⟨"customer not found", rfl⟩

/-- Witness for C6: a two-item request whose second item references the absent
product 99 fails with NotFound and leaves the database unchanged. -/
theorem createOrder_all_or_nothing_witness :
    ((∃ cid, wsBadCreateReq.customerID = some cid ∧ customerExists wsState cid = false) ∨
      (∃ it ∈ wsBadCreateReq.items, findProduct wsState it.productID = none)) ∧
    ∃ msg, createOrder wsState wsBadCreateReq =
      (Except.error (ServiceError.notFound msg), wsState) :=
  ⟨Or.inr (by decide),
    @createOrder_all_or_nothing wsState wsBadCreateReq (Or.inr (by decide))⟩

theorem processPaymentCheck_ok {s : DBState} {oid : Nat} {req : CreatePaymentRequest}
    {o : Order} {tp : Int} (h : processPaymentCheck s oid req = Except.ok (o, tp)) :
    findOrder s oid = some o ∧ 0 < req.amount ∧ tp = getTotalPaidByOrderID s oid ∧
    tp + req.amount ≤ o.totalAmount := by
  unfold processPaymentCheck at h
  cases hf : findOrder s oid with
  | none => rw [hf] at h; cases h
  | some order =>
    rw [hf] at h
    dsimp only at h
    split at h
    case isTrue => cases h
    case isFalse h0 =>
      split at h
      case isTrue => cases h
      case isFalse hgt =>
        injection h with h
        injection h with h1 h2
        subst h2
        rw [h1] at hgt
        exact ⟨by rw [h1], not_le.mp h0, rfl, not_lt.mp hgt⟩

theorem processPaymentCheck_eq_ok {s : DBState} {oid : Nat} {req : CreatePaymentRequest}
    {o : Order} (hf : findOrder s oid = some o) (h0 : 0 < req.amount)
    (hle : getTotalPaidByOrderID s oid + req.amount ≤ o.totalAmount) :
    processPaymentCheck s oid req = Except.ok (o, getTotalPaidByOrderID s oid) := by
  unfold processPaymentCheck
  rw [hf]
  dsimp only
  rw [if_neg (not_le.mpr h0), if_neg (not_lt.mpr hle)]

theorem processPaymentCheck_exceeds {s : DBState} {oid : Nat} {req : CreatePaymentRequest}
    {o : Order} (hf : findOrder s oid = some o) (h0 : 0 < req.amount)
    (hgt : o.totalAmount < getTotalPaidByOrderID s oid + req.amount) :
    processPaymentCheck s oid req =
      Except.error (ServiceError.invalidArgument "payment amount exceeds order total") := by
  unfold processPaymentCheck
  rw [hf]
  dsimp only
  rw [if_neg (not_le.mpr h0), if_pos hgt]

theorem processPayment_check_error {s : DBState} {oid : Nat} {req : CreatePaymentRequest}
    {e : ServiceError} (h : processPaymentCheck s oid req = Except.error e) :
    processPayment s oid req = (Except.error e, s) := by
  unfold processPayment
  rw [h]

theorem paymentRepoCreate_fst (s : DBState) (oid : Nat) (req : CreatePaymentRequest) :
    (paymentRepoCreate s (mkPayment0 oid req)).1 = mkPayment s oid req := rfl

theorem paymentRepoCreate_payments (s : DBState) (p : Payment) :
    ((paymentRepoCreate s p).2).payments = s.payments ++ [(paymentRepoCreate s p).1] := rfl

theorem paymentRepoCreate_orders (s : DBState) (p : Payment) :
    ((paymentRepoCreate s p).2).orders = s.orders := rfl

theorem paymentRepoCreate_receipts (s : DBState) (p : Payment) :
    ((paymentRepoCreate s p).2).receipts = s.receipts := rfl

theorem gtp_after_append (s t : DBState) (pay : Payment) (oid : Nat)
    (ht : t.payments = s.payments ++ [pay]) (hpo : pay.orderID = oid)
    (hps : pay.status = "completed") :
    getTotalPaidByOrderID t oid = getTotalPaidByOrderID s oid + pay.amount := by
  unfold getTotalPaidByOrderID
  rw [ht, totalCompleted_append, totalCompleted_single_match hpo hps]

theorem gtp_after_append_ne (s t : DBState) (pay : Payment) (x : Nat)
    (ht : t.payments = s.payments ++ [pay]) (hne : pay.orderID ≠ x) :
    getTotalPaidByOrderID t x = getTotalPaidByOrderID s x := by
  unfold getTotalPaidByOrderID
  rw [ht, totalCompleted_append, totalCompleted_single_nomatch hne, add_zero]

theorem processPaymentCommit_lt {s : DBState} {oid : Nat} {req : CreatePaymentRequest}
    {o : Order} {tp : Int} (hlt : tp + req.amount < o.totalAmount) :
    processPaymentCommit s oid req o tp =
      (Except.ok (mkPayment s oid req), (paymentRepoCreate s (mkPayment0 oid req)).2) := by
  unfold processPaymentCommit
  dsimp only
  rw [if_neg (not_le.mpr hlt)]
  rfl

theorem processPaymentCommit_ge {s : DBState} {oid : Nat} {req : CreatePaymentRequest}
    {o : Order} {tp : Int} (hge : o.totalAmount ≤ tp + req.amount)
    (hany : s.orders.any (fun x => x.id == oid) = true) :
    ∃ s2, processPaymentCommit s oid req o tp = (Except.ok (mkPayment s oid req), s2) ∧
      s2.payments = s.payments ++ [mkPayment s oid req] ∧
      s2.receipts = s.receipts ∧
      s2.orders.map (fun y => (y.id, y.totalAmount))
        = s.orders.map (fun y => (y.id, y.totalAmount)) ∧
      ∀ x, findOrder s2 x = (findOrder s x).map
        (fun y => if y.id == oid then { y with paymentStatus := "paid" } else y) := by
  have hany2 : ((paymentRepoCreate s (mkPayment0 oid req)).2).orders.any
      (fun x => x.id == oid) = true := by
    rw [paymentRepoCreate_orders]
    exact hany
  obtain ⟨t, ht⟩ := orderRepoUpdatePS_isOk "paid" hany2
  obtain ⟨hpay, hrec, hpairs, hfind⟩ := orderRepoUpdatePS_ok ht
  refine ⟨t, ?_, ?_, ?_, ?_, ?_⟩
  · unfold processPaymentCommit
    dsimp only
    rw [if_pos hge, ht]
    rfl
  · rw [hpay, paymentRepoCreate_payments, paymentRepoCreate_fst]
  · rw [hrec, paymentRepoCreate_receipts]
  · rw [hpairs, paymentRepoCreate_orders]
  · intro x
    rw [hfind x, findOrder_eq_of_orders (paymentRepoCreate_orders s (mkPayment0 oid req)) x]

theorem processPayment_ok_spec {s : DBState} {oid : Nat} {req : CreatePaymentRequest}
    {o : Order} (hf : findOrder s oid = some o) (h0 : 0 < req.amount)
    (hle : getTotalPaidByOrderID s oid + req.amount ≤ o.totalAmount) :
    ∃ s2, processPayment s oid req = (Except.ok (mkPayment s oid req), s2) ∧
      s2.payments = s.payments ++ [mkPayment s oid req] ∧
      s2.receipts = s.receipts ∧
      getTotalPaidByOrderID s2 oid = getTotalPaidByOrderID s oid + req.amount ∧
      (∀ x, x ≠ oid → getTotalPaidByOrderID s2 x = getTotalPaidByOrderID s x) ∧
      s2.orders.map (fun y => (y.id, y.totalAmount))
        = s.orders.map (fun y => (y.id, y.totalAmount)) ∧
      (getTotalPaidByOrderID s oid + req.amount = o.totalAmount →
        ∀ x, findOrder s2 x = (findOrder s x).map
          (fun y => if y.id == oid then { y with paymentStatus := "paid" } else y)) ∧
      (getTotalPaidByOrderID s oid + req.amount < o.totalAmount → s2.orders = s.orders) := by
  have hstep : processPayment s oid req
      = processPaymentCommit s oid req o (getTotalPaidByOrderID s oid) := by
    unfold processPayment
    rw [processPaymentCheck_eq_ok hf h0 hle]
  rcases lt_or_eq_of_le hle with hlt | heqt
  · refine ⟨(paymentRepoCreate s (mkPayment0 oid req)).2, ?_, ?_, ?_, ?_, ?_, ?_, ?_, ?_⟩
    · rw [hstep, processPaymentCommit_lt hlt]
    · rfl
    · exact paymentRepoCreate_receipts s (mkPayment0 oid req)
    · exact gtp_after_append s _ (mkPayment s oid req) oid rfl rfl rfl
    · intro x hx
      exact gtp_after_append_ne s _ (mkPayment s oid req) x rfl (fun hc => hx hc.symm)
    · rw [paymentRepoCreate_orders]
    · intro hcon
      exact absurd hcon (ne_of_lt hlt)
    · intro hlt2
      exact paymentRepoCreate_orders s (mkPayment0 oid req)
  · obtain ⟨s2, hc, hpay, hrec, hpairs, hfind⟩ :=
      processPaymentCommit_ge (heqt.ge) (findOrder_any hf)
    refine ⟨s2, ?_, hpay, hrec, ?_, ?_, hpairs, ?_, ?_⟩
    · rw [hstep, hc]
    · exact gtp_after_append s s2 (mkPayment s oid req) oid hpay rfl rfl
    · intro x hx
      exact gtp_after_append_ne s s2 (mkPayment s oid req) x hpay (fun hc => hx hc.symm)
    · intro hcon
      exact hfind
    · intro hcon
      exact absurd heqt (ne_of_lt hcon)

theorem processPayment_step_inv {s : DBState} {oid : Nat} {req : CreatePaymentRequest}
    (hwf : ordersWF s) (hinv : PaymentCapInv s) :
    ordersWF (processPayment s oid req).2 ∧ PaymentCapInv (processPayment s oid req).2 := by
  cases hc : processPaymentCheck s oid req with
  | error e =>
    rw [processPayment_check_error hc]
    exact ⟨hwf, hinv⟩
  | ok pr =>
    obtain ⟨o, tp⟩ := pr
    obtain ⟨hf, h0, htp, hle⟩ := processPaymentCheck_ok hc
    subst htp
    obtain ⟨s2, heq, hpay, hrec, hg1, hg2, hpairs, hupd, hkeep⟩ :=
      processPayment_ok_spec hf h0 hle
    rw [heq]
    have hids : s2.orders.map Order.id = s.orders.map Order.id := by
      have h2 := congrArg (List.map (fun z : Nat × Int => z.1)) hpairs
      simpa [List.map_map, Function.comp_def] using h2
    constructor
    · unfold ordersWF
      rw [hids]
      exact hwf
    · intro o2 hmem
      have hpmem : (o2.id, o2.totalAmount) ∈ s.orders.map (fun y => (y.id, y.totalAmount)) := by
        rw [← hpairs]
        exact List.mem_map_of_mem _ hmem
      obtain ⟨o1, hmem1, hpair⟩ := List.mem_map.mp hpmem
      have hid : o1.id = o2.id := congrArg Prod.fst hpair
      have htot : o1.totalAmount = o2.totalAmount := congrArg Prod.snd hpair
      by_cases hx : o2.id = oid
      · have ho1 : o1 = o :=
          order_mem_id_unique hwf hmem1 (findOrder_mem hf) (by rw [hid, hx, findOrder_id hf])
        rw [hx, hg1]
        have htot2 : o.totalAmount = o2.totalAmount := by
          rw [← ho1]
          exact htot
        exact le_of_le_of_eq hle htot2
      · rw [hg2 o2.id hx]
        have hbound := hinv o1 hmem1
        rw [hid, htot] at hbound
        exact hbound

theorem runPayments_inv (calls : List (Nat × CreatePaymentRequest)) :
    ∀ s : DBState, ordersWF s → PaymentCapInv s →
      ordersWF (runPayments s calls) ∧ PaymentCapInv (runPayments s calls) := by
  induction calls with
  | nil =>
    intro s hwf hinv
    exact ⟨hwf, hinv⟩
  | cons c rest ih =>
    intro s hwf hinv
    unfold runPayments
    obtain ⟨hwf2, hinv2⟩ := processPayment_step_inv hwf hinv
    exact ih _ hwf2 hinv2

/-- Claim C1: the payment cap is an invariant.  In any database whose order
ids are distinct and whose completed-payment sums do not exceed their order
totals, (a) every sequence of ProcessPayment calls preserves that bound, and
(b) a single call whose amount would push the completed total of an existing
order past its total_amount fails with InvalidArgument "payment amount
exceeds order total" and leaves the database (payments and orders) unchanged. -/
theorem processPayment_cap {s : DBState} (hwf : ordersWF s) (hinv : PaymentCapInv s) :
    (∀ calls, PaymentCapInv (runPayments s calls)) ∧
    (∀ oid (o : Order) req, findOrder s oid = some o →
      o.totalAmount < getTotalPaidByOrderID s oid + req.amount →
      processPayment s oid req =
        (Except.error (ServiceError.invalidArgument "payment amount exceeds order total"), s)) := by
  constructor
  · intro calls
    exact (runPayments_inv calls s hwf hinv).2
  · intro oid o req hf hgt
    have hbound : getTotalPaidByOrderID s oid ≤ o.totalAmount := by
      have h1 := hinv o (findOrder_mem hf)
      rwa [findOrder_id hf] at h1
    have h0 : 0 < req.amount := by omega
    exact processPayment_check_error (processPaymentCheck_exceeds hf h0 hgt)

/-- Witness for C1: on the concrete single-order database, the invariant
holds after any call sequence, and the concrete overshooting request of 300
against the 200 total (0 paid) fails with InvalidArgument and no state
change. -/
theorem processPayment_cap_witness :
    ordersWF wsState ∧ PaymentCapInv wsState ∧
    ((∀ calls, PaymentCapInv (runPayments wsState calls)) ∧
     (∀ oid (o : Order) req, findOrder wsState oid = some o →
       o.totalAmount < getTotalPaidByOrderID wsState oid + req.amount →
       processPayment wsState oid req =
         (Except.error (ServiceError.invalidArgument "payment amount exceeds order total"), wsState))) ∧
    processPayment wsState 1 { amount := 300, paymentMethod := "cash", reference := "" } =
      (Except.error (ServiceError.invalidArgument "payment amount exceeds order total"), wsState) :=
  ⟨by decide, by decide, processPayment_cap (by decide) (by decide),
    (processPayment_cap (by decide) (by decide)).2 1 wsOrder
      { amount := 300, paymentMethod := "cash", reference := "" } (by decide) (by decide)⟩

theorem processPayment_pair_ok_inv {s : DBState} {oid : Nat} {req : CreatePaymentRequest}
    {p : Payment} {s1 : DBState} (h : processPayment s oid req = (Except.ok p, s1)) :
    ∃ o, findOrder s oid = some o ∧ 0 < req.amount ∧
      getTotalPaidByOrderID s oid + req.amount ≤ o.totalAmount := by
  unfold processPayment at h
  cases hc : processPaymentCheck s oid req with
  | error e =>
    rw [hc] at h
    injection h with h1 h2
    cases h1
  | ok pr =>
    obtain ⟨o, tp⟩ := pr
    obtain ⟨hf, h0, htp, hle⟩ := processPaymentCheck_ok hc
    exact ⟨o, hf, h0, htp ▸ hle⟩

theorem runPaymentsOk_run {oid : Nat} :
    ∀ (reqs : List CreatePaymentRequest) (s : DBState) (o : Order) (t : DBState),
      findOrder s oid = some o →
      runPaymentsOk s oid reqs = some t →
      (getTotalPaidByOrderID s oid + ((reqs.map CreatePaymentRequest.amount).sum)
          < o.totalAmount → t.orders = s.orders) ∧
      (reqs ≠ [] →
        getTotalPaidByOrderID s oid + ((reqs.map CreatePaymentRequest.amount).sum)
          = o.totalAmount →
        findOrder t oid = some { o with paymentStatus := "paid" }) := by
  intro reqs
  induction reqs with
  | nil =>
    intro s o t hf hrun
    unfold runPaymentsOk at hrun
    injection hrun with hrun
    subst hrun
    constructor
    · intro hlt
      rfl
    · intro hne hsum
      exact absurd rfl hne
  | cons req rest ih =>
    intro s o t hf hrun
    unfold runPaymentsOk at hrun
    cases hp : processPayment s oid req with
    | mk r s1 =>
      rw [hp] at hrun
      cases r with
      | error e =>
        dsimp only at hrun
        cases hrun
      | ok p =>
        dsimp only at hrun
        obtain ⟨o2, hf2, h0, hle⟩ := processPayment_pair_ok_inv hp
        have ho2 : o2 = o := Option.some.inj (hf2.symm.trans hf)
        subst ho2
        obtain ⟨s2, heq, hpay, hrec, hg1, hg2, hpairs, hupd, hkeep⟩ :=
          processPayment_ok_spec hf2 h0 hle
        have hs12 : s1 = s2 := by
          have h3 := hp.symm.trans heq
          injection h3 with h3a h3b
        subst hs12
        rcases lt_or_eq_of_le hle with hlt | heqt
        · have horders : s1.orders = s.orders := hkeep hlt
          have hf1 : findOrder s1 oid = some o2 := by
            rw [findOrder_eq_of_orders horders oid]
            exact hf2
          obtain ⟨ihlt, iheq⟩ := ih s1 o2 t hf1 hrun
          constructor
          · intro hsumlt
            simp only [List.map_cons, List.sum_cons] at hsumlt
            have hlt2 : getTotalPaidByOrderID s1 oid
                + ((rest.map CreatePaymentRequest.amount).sum) < o2.totalAmount := by
              rw [hg1]
              omega
            rw [ihlt hlt2]
            exact horders
          · intro hne hsum
            simp only [List.map_cons, List.sum_cons] at hsum
            have hrest_ne : rest ≠ [] := by
              intro hnil
              subst hnil
              simp only [List.map_nil, List.sum_nil] at hsum
              omega
            refine iheq hrest_ne ?_
            rw [hg1]
            omega
        · -- this call reaches the total: the status is set to paid and no
          -- further positive payment can succeed, so rest must be empty
          have hford1 : findOrder s1 oid = some { o2 with paymentStatus := "paid" } := by
            rw [hupd heqt oid, hf2]
            have hid : o2.id = oid := findOrder_id hf2
            simp [hid]
          have hgtp1 : getTotalPaidByOrderID s1 oid = o2.totalAmount := by
            rw [hg1, heqt]
          cases rest with
          | nil =>
            unfold runPaymentsOk at hrun
            injection hrun with hrun
            subst hrun
            constructor
            · intro hsumlt
              simp only [List.map_cons, List.map_nil, List.sum_cons, List.sum_nil] at hsumlt
              omega
            · intro hne hsum
              exact hford1
          | cons req2 rest2 =>
            exfalso
            unfold runPaymentsOk at hrun
            cases hp2 : processPayment s1 oid req2 with
            | mk r2 s3 =>
              rw [hp2] at hrun
              cases r2 with
              | error e2 =>
                dsimp only at hrun
                cases hrun
              | ok p2 =>
                obtain ⟨o3, hf3, h02, hle2⟩ := processPayment_pair_ok_inv hp2
                have ho3 : o3 = { o2 with paymentStatus := "paid" } :=
                  Option.some.inj (hf3.symm.trans hford1)
                subst ho3
                have htot3 : ({ o2 with paymentStatus := "paid" } : Order).totalAmount
                    = o2.totalAmount := rfl
                rw [htot3, hgtp1] at hle2
                omega

/-- Claim C2: starting from an existing order with payment_status "pending",
after a nonempty sequence of successful ProcessPayment calls whose amounts
(together with what was already paid) sum to exactly total_amount, the
order's payment_status is "paid"; after any successful sequence summing to
strictly less than total_amount it is still "pending". -/
theorem paymentStatus_transition {s : DBState} {oid : Nat} {o : Order}
    {reqs : List CreatePaymentRequest} {t : DBState}
    (hf : findOrder s oid = some o) (hpend : o.paymentStatus = "pending")
    (hrun : runPaymentsOk s oid reqs = some t) :
    (getTotalPaidByOrderID s oid + ((reqs.map CreatePaymentRequest.amount).sum)
        < o.totalAmount →
      ∃ o1, findOrder t oid = some o1 ∧ o1.paymentStatus = "pending") ∧
    (reqs ≠ [] →
      getTotalPaidByOrderID s oid + ((reqs.map CreatePaymentRequest.amount).sum)
        = o.totalAmount →
      ∃ o1, findOrder t oid = some o1 ∧ o1.paymentStatus = "paid") := by
  obtain ⟨h1, h2⟩ := runPaymentsOk_run reqs s o t hf hrun
  constructor
  · intro hlt
    refine ⟨o, ?_, hpend⟩
    rw [findOrder_eq_of_orders (h1 hlt) oid]
    exact hf
  · intro hne hsum
    exact ⟨_, h2 hne hsum, rfl⟩

/-- Witness for C2: paying 100 of the 200 total leaves the concrete order
pending; paying 100 twice (summing exactly to 200) makes it paid. -/
theorem paymentStatus_transition_witness :
    (findOrder wsState 1 = some wsOrder ∧ wsOrder.paymentStatus = "pending" ∧
     runPaymentsOk wsState 1 wsReqsOne = some wsAfterOne ∧
     getTotalPaidByOrderID wsState 1 + ((wsReqsOne.map CreatePaymentRequest.amount).sum)
        < wsOrder.totalAmount ∧
     ∃ o1, findOrder wsAfterOne 1 = some o1 ∧ o1.paymentStatus = "pending") ∧
    (findOrder wsState 1 = some wsOrder ∧
     runPaymentsOk wsState 1 wsReqs = some wsAfterTwo ∧ wsReqs ≠ [] ∧
     getTotalPaidByOrderID wsState 1 + ((wsReqs.map CreatePaymentRequest.amount).sum)
        = wsOrder.totalAmount ∧
     ∃ o1, findOrder wsAfterTwo 1 = some o1 ∧ o1.paymentStatus = "paid") :=
  ⟨⟨by decide, by decide, by decide, by decide,
    (@paymentStatus_transition wsState 1 wsOrder wsReqsOne wsAfterOne
      (by decide) (by decide) (by decide)).1 (by decide)⟩,
   ⟨by decide, by decide, by decide, by decide,
    (@paymentStatus_transition wsState 1 wsOrder wsReqs wsAfterTwo
      (by decide) (by decide) (by decide)).2 (by decide) (by decide)⟩⟩

/-- Claim C10: ProcessPayment never inspects the order's status.  A cancelled
order accepts any valid in-budget payment, records it as completed, and when
the payment reaches the total the order becomes paid and GenerateReceipt
subsequently succeeds on it. -/
theorem processPayment_ignores_status {s : DBState} {oid : Nat} {o : Order}
    {req : CreatePaymentRequest}
    (hf : findOrder s oid = some o) (hcanc : o.status = "cancelled")
    (h0 : 0 < req.amount)
    (hle : getTotalPaidByOrderID s oid + req.amount ≤ o.totalAmount) :
    ∃ s2, processPayment s oid req = (Except.ok (mkPayment s oid req), s2) ∧
      (mkPayment s oid req).status = "completed" ∧
      (mkPayment s oid req).amount = req.amount ∧
      getTotalPaidByOrderID s2 oid = getTotalPaidByOrderID s oid + req.amount ∧
      (getTotalPaidByOrderID s oid + req.amount = o.totalAmount →
        ∃ o1, findOrder s2 oid = some o1 ∧ o1.paymentStatus = "paid" ∧
          o1.status = "cancelled" ∧
          ∃ r u, generateReceipt s2 oid = (Except.ok r, u)) := by
  obtain ⟨s2, heq, hpay, hrec, hg1, hg2, hpairs, hupd, hkeep⟩ :=
    processPayment_ok_spec hf h0 hle
  refine ⟨s2, heq, rfl, rfl, hg1, ?_⟩
  intro heqt
  have hford : findOrder s2 oid = some { o with paymentStatus := "paid" } := by
    rw [hupd heqt oid, hf]
    have hid : o.id = oid := findOrder_id hf
    simp [hid]
  refine ⟨{ o with paymentStatus := "paid" }, hford, rfl, hcanc, ?_⟩
  cases hg : receiptGetByOrderID s2 oid with
  | some ex =>
    refine ⟨ex, s2, ?_⟩
    unfold generateReceipt
    rw [hford]
    dsimp only
    rw [if_neg (by simp), hg]
  | none =>
    have hcall : generateReceipt s2 oid
        = (Except.ok (receiptRepoCreate s2 ⟨0, oid, "", o.totalAmount, o.taxAmount⟩).1,
           (receiptRepoCreate s2 ⟨0, oid, "", o.totalAmount, o.taxAmount⟩).2) := by
      unfold generateReceipt
      rw [hford]
      dsimp only
      rw [if_neg (by simp), hg]
    exact ⟨_, _, hcall⟩

/-- Witness for C10: the concrete cancelled order (total 200, 0 paid) accepts
a 200 payment, becomes paid while still cancelled, and then yields a
receipt. -/
theorem processPayment_ignores_status_witness :
    findOrder wsStateCancelled 1 = some wsOrderCancelled ∧
    wsOrderCancelled.status = "cancelled" ∧ 0 < wsPayFull.amount ∧
    getTotalPaidByOrderID wsStateCancelled 1 + wsPayFull.amount
      ≤ wsOrderCancelled.totalAmount ∧
    ∃ s2, processPayment wsStateCancelled 1 wsPayFull
        = (Except.ok (mkPayment wsStateCancelled 1 wsPayFull), s2) ∧
      (mkPayment wsStateCancelled 1 wsPayFull).status = "completed" ∧
      (mkPayment wsStateCancelled 1 wsPayFull).amount = wsPayFull.amount ∧
      getTotalPaidByOrderID s2 1
        = getTotalPaidByOrderID wsStateCancelled 1 + wsPayFull.amount ∧
      (getTotalPaidByOrderID wsStateCancelled 1 + wsPayFull.amount
          = wsOrderCancelled.totalAmount →
        ∃ o1, findOrder s2 1 = some o1 ∧ o1.paymentStatus = "paid" ∧
          o1.status = "cancelled" ∧
          ∃ r u, generateReceipt s2 1 = (Except.ok r, u)) :=
  ⟨by decide, by decide, by decide, by decide,
    @processPayment_ignores_status wsStateCancelled 1 wsOrderCancelled wsPayFull
      (by decide) (by decide) (by decide) (by decide)⟩

/-- Claim C7 is refuted by the schema: the receipts table of migration
002_pos_tables.sql has no uniqueness constraint on order_id (only a plain
index), so a second receipt row for the same order passes every constraint
the persistence layer enforces, instead of failing as the claim states. -/
theorem receipts_order_id_not_unique :
    wsReceipt.orderID = 1 ∧
    receiptInsertAllowed [1] [wsReceipt]
      { id := 101, orderID := 1, receiptNumber := "RCP-1001",
        totalAmount := 200, taxAmount := 15 } := by
  constructor
  · rfl
  · decide

/-- Claim C8 is refuted by the code: ProcessPayment runs its check phase and
write phase as separate database calls with no lock or transaction.  In the
read-read-write-write interleaving of two 100-payments against an order with
total 100, both checks pass against the initial state, both writes land, and
the completed-payment total reaches 200 on an order whose total_amount is
100, violating the payment-cap invariant. -/
theorem processPayment_unserialized_race :
    processPaymentCheck raceState 1 raceReq = Except.ok (raceOrder, 0) ∧
    getTotalPaidByOrderID raceFinal 1 = 200 ∧
    findOrder raceFinal 1 = some { raceOrder with paymentStatus := "paid" } ∧
    ¬ PaymentCapInv raceFinal := by
  refine ⟨by decide, by decide, by decide, by decide⟩
